import Mathlib

/-!
# Verification of the s3-proxy storage gateway

A shallow embedding of the gateway's two core subsystems — the SigV4-style
signature verification (`src/signature.rs`) and the namespace-scoped storage
router (`src/api.rs`) — together with proofs about the claims the
specification makes of them.

Machine integers are modelled as `Nat` with explicit reduction modulo `2^32`
where the source wraps; byte strings are `List Nat` with every entry below
256; fallible code returns `Option` (with `none` standing for a panic where
the source can panic, as noted at each definition).
-/

set_option maxRecDepth 4000000

namespace S3Proxy

/-! ## SHA-256 over byte lists

Modelled from the spec: the gateway delegates the keyed-hash chain to the
`aws-sigv4`/`ring` stack, which is not part of this repository.  The spec
(§4.2) fixes the algorithm as standard SHA-256 / HMAC-SHA256, so FIPS 180-4
SHA-256 is implemented here directly.  The concrete test vector the
repository pins down (signature `e5ad06…` for the documented request) is
reproduced by this implementation, which validates the model end to end. -/

def mod32 : Nat := 4294967296

/-- Right rotation of a 32-bit word held in a `Nat`. -/
def rotr32 (n x : Nat) : Nat := ((x >>> n) ||| (x <<< (32 - n))) % mod32

/-- The 64 SHA-256 round constants of FIPS 180-4 (the fractional parts of the
cube roots of the first 64 primes), written in decimal. -/
def shaK : List Nat :=
  [1116352408, 1899447441, 3049323471, 3921009573, 961987163,
   1508970993, 2453635748, 2870763221, 3624381080, 310598401,
   607225278, 1426881987, 1925078388, 2162078206, 2614888103,
   3248222580, 3835390401, 4022224774, 264347078, 604807628,
   770255983, 1249150122, 1555081692, 1996064986, 2554220882,
   2821834349, 2952996808, 3210313671, 3336571891, 3584528711,
   113926993, 338241895, 666307205, 773529912, 1294757372,
   1396182291, 1695183700, 1986661051, 2177026350, 2456956037,
   2730485921, 2820302411, 3259730800, 3345764771, 3516065817,
   3600352804, 4094571909, 275423344, 430227734, 506948616,
   659060556, 883997877, 958139571, 1322822218, 1537002063,
   1747873779, 1955562222, 2024104815, 2227730452, 2361852424,
   2428436474, 2756734187, 3204031479, 3329325298]

/-- The eight SHA-256 initial hash values of FIPS 180-4 (the fractional parts
of the square roots of the first 8 primes), written in decimal. -/
def shaInit : List Nat :=
  [1779033703, 3144134277, 1013904242, 2773480762,
   1359893119, 2600822924, 528734635, 1541459225]

/-- Working state of the SHA-256 compression loop. -/
structure Sha256State where
  a : Nat
  b : Nat
  c : Nat
  d : Nat
  e : Nat
  f : Nat
  g : Nat
  h : Nat

/-- One SHA-256 round; `kw` is the pair of round constant and schedule word. -/
def shaRound (st : Sha256State) (kw : Nat × Nat) : Sha256State :=
  let s1 := (rotr32 6 st.e) ^^^ (rotr32 11 st.e) ^^^ (rotr32 25 st.e)
  let ch := (st.e &&& st.f) ^^^ ((st.e ^^^ 4294967295) &&& st.g)
  let t1 := (st.h + s1 + ch + kw.1 + kw.2) % mod32
  let s0 := (rotr32 2 st.a) ^^^ (rotr32 13 st.a) ^^^ (rotr32 22 st.a)
  let mj := (st.a &&& st.b) ^^^ (st.a &&& st.c) ^^^ (st.b &&& st.c)
  let t2 := (s0 + mj) % mod32
  ⟨(t1 + t2) % mod32, st.a, st.b, st.c, (st.d + t1) % mod32, st.e, st.f, st.g⟩

/-- Next message-schedule word, computed from the schedule built so far held
most-recent-first (so indices 1, 6, 14, 15 are `w[t-2]`, `w[t-7]`, `w[t-15]`,
`w[t-16]`). -/
def schedStep (w : List Nat) : Nat :=
  let x2 := w.getD 1 0
  let x15 := w.getD 14 0
  let s0 := (rotr32 7 x15) ^^^ (rotr32 18 x15) ^^^ (x15 >>> 3)
  let s1 := (rotr32 17 x2) ^^^ (rotr32 19 x2) ^^^ (x2 >>> 10)
  (s1 + w.getD 6 0 + s0 + w.getD 15 0) % mod32

/-- Extend the (reversed) message schedule by `n` words. -/
def extendW : Nat → List Nat → List Nat
  | 0, w => w
  | n + 1, w => extendW n (schedStep w :: w)

/-- The 64-word message schedule of one 16-word block. -/
def schedule (block : List Nat) : List Nat :=
  (extendW 48 block.reverse).reverse

/-- Compress one 16-word block into the running 8-word digest state. -/
def compressBlock (hs : List Nat) (block : List Nat) : List Nat :=
  let st0 : Sha256State :=
    ⟨hs.getD 0 0, hs.getD 1 0, hs.getD 2 0, hs.getD 3 0,
     hs.getD 4 0, hs.getD 5 0, hs.getD 6 0, hs.getD 7 0⟩
  let stf := (List.zip shaK (schedule block)).foldl shaRound st0
  [(st0.a + stf.a) % mod32, (st0.b + stf.b) % mod32, (st0.c + stf.c) % mod32,
   (st0.d + stf.d) % mod32, (st0.e + stf.e) % mod32, (st0.f + stf.f) % mod32,
   (st0.g + stf.g) % mod32, (st0.h + stf.h) % mod32]

/-- Big-endian 8-byte encoding of a 64-bit length. -/
def u64be (x : Nat) : List Nat :=
  [(x >>> 56) % 256, (x >>> 48) % 256, (x >>> 40) % 256, (x >>> 32) % 256,
   (x >>> 24) % 256, (x >>> 16) % 256, (x >>> 8) % 256, x % 256]

/-- FIPS 180-4 §5.1.1 padding: `0x80`, zeros, then the big-endian bit length,
to a multiple of 64 bytes. -/
def padMsg (msg : List Nat) : List Nat :=
  msg ++ 128 :: List.replicate ((119 - msg.length % 64) % 64) 0
      ++ u64be (msg.length * 8)

/-- Big-endian packing of bytes into 32-bit words. -/
def bytesToWords : List Nat → List Nat
  | a3 :: a2 :: a1 :: a0 :: rest =>
      (a3 <<< 24 ||| a2 <<< 16 ||| a1 <<< 8 ||| a0) :: bytesToWords rest
  | _ => []

/-- Chop a word list into 16-word blocks (`fuel` bounds the recursion). -/
def toBlocks : Nat → List Nat → List (List Nat)
  | 0, _ => []
  | _, [] => []
  | fuel + 1, ws => ws.take 16 :: toBlocks fuel (ws.drop 16)

/-- Big-endian 4-byte encoding of a 32-bit word. -/
def w32be (x : Nat) : List Nat :=
  [(x >>> 24) % 256, (x >>> 16) % 256, (x >>> 8) % 256, x % 256]

/-- SHA-256 of a byte list, as the 32-byte digest. -/
def sha256 (msg : List Nat) : List Nat :=
  let ws := bytesToWords (padMsg msg)
  ((toBlocks ws.length ws).foldl compressBlock shaInit).map w32be |>.flatten

/-- HMAC-SHA256 (FIPS 198-1) with a 64-byte block: keys longer than the block
are hashed first, then zero-padded to the block size. -/
def hmacSha256 (key msg : List Nat) : List Nat :=
  let k0 := if 64 < key.length then sha256 key else key
  let kp := k0 ++ List.replicate (64 - k0.length) 0
  sha256 ((kp.map (fun b => b ^^^ 92)) ++ sha256 ((kp.map (fun b => b ^^^ 54)) ++ msg))

/-- Lowercase hexadecimal alphabet. -/
def hexChars : List Char := "0123456789abcdef".data

/-- Two lowercase hex characters of one byte. -/
def byteHex (b : Nat) : List Char :=
  [hexChars.getD (b / 16) '0', hexChars.getD (b % 16) '0']

/-- Lowercase hex string of a byte list. -/
def hexStr (bs : List Nat) : String :=
  String.mk (bs.foldr (fun b acc => byteHex b ++ acc) [])

/-- Bytes of a string.  All strings fed to the signing chain by this
development are ASCII (or carry their bytes as code points below 256), so
mapping code points to bytes coincides with UTF-8 encoding wherever it is
applied. -/
def strBytes (s : String) : List Nat := s.data.map Char.toNat

/-! ## String and header-map plumbing -/

/-- `http::HeaderValue::to_str` accepts exactly the visible ASCII bytes plus
space and horizontal tab; any other byte (a `HeaderValue` may carry opaque
bytes up to 255) makes it fail. -/
def isVisibleByte (b : Nat) : Bool := (32 ≤ b && b < 127) || b == 9

/-- Model of `HeaderValue::to_str`: `none` exactly when a byte is not visible
ASCII. -/
def toStrHV (bs : List Nat) : Option String :=
  if bs.all isVisibleByte then some (String.mk (bs.map Char.ofNat)) else none

/-- ASCII lowercasing of one character. -/
def lowerChar (c : Char) : Char :=
  if 65 ≤ c.toNat && c.toNat ≤ 90 then Char.ofNat (c.toNat + 32) else c

/-- ASCII lowercasing of a string (the `http` crate lowercases header names). -/
def lowerStr (s : String) : String := String.mk (s.data.map lowerChar)

/-- `cons` a character onto the first string of a split result. -/
def consHead (c : Char) : List String → List String
  | [] => [String.mk [c]]
  | s :: rest => String.mk (c :: s.data) :: rest

/-- Split a character list on a separator; mirrors Rust's `str::split` (always
at least one piece, empty pieces preserved). -/
def splitList (sep : Char) : List Char → List String
  | [] => [""]
  | c :: cs => if c = sep then "" :: splitList sep cs else consHead c (splitList sep cs)

/-- Rust `str::split` on a one-character separator. -/
def splitStr (sep : Char) (s : String) : List String := splitList sep s.data

/-- Split at the first occurrence of a separator; `none` when absent. -/
def splitFirstList (sep : Char) : List Char → Option (List Char × List Char)
  | [] => none
  | c :: cs =>
      if c = sep then some ([], cs)
      else (splitFirstList sep cs).map (fun p => (c :: p.1, p.2))

/-- Rust `str::split_once` on a one-character separator. -/
def splitFirstStr (sep : Char) (s : String) : Option (String × String) :=
  (splitFirstList sep s.data).map (fun p => (String.mk p.1, String.mk p.2))

/-- The whitespace that can occur in a visible-ASCII header value; Rust's
`str::trim` removes it from both ends. -/
def isRustWhitespace (c : Char) : Bool := c = ' ' || c = '\t' || c = '\n' || c = '\r'

/-- Rust `str::trim` (restricted to the whitespace representable here). -/
def trimStr (s : String) : String :=
  String.mk (((s.data.dropWhile isRustWhitespace).reverse.dropWhile isRustWhitespace).reverse)

/-- A request header map: names stored lowercase (the `HeaderMap` invariant),
values as raw bytes. -/
abbrev Headers := List (String × List Nat)

/-- `HeaderMap::get`: lookup is case-insensitive (the probe name is lowercased
on the way in). -/
def hmGet (h : Headers) (name : String) : Option (List Nat) :=
  (h.find? (fun kv => kv.1 == lowerStr name)).map (fun kv => kv.2)

/-- `HeaderMap::contains_key`. -/
def hmContains (h : Headers) (name : String) : Bool := (hmGet h name).isSome

/-- Get a header and convert it with `to_str`, as
`map.get(k).and_then(|x| x.to_str().ok())` does. -/
def hmGetStr (h : Headers) (name : String) : Option String :=
  (hmGet h name).bind toStrHV

/-! ## `S3V4Params` and `parse_authorization_header` (src/signature.rs) -/

/-- The parsed fields of the authorization header (`S3V4Params` in
src/signature.rs).  The source's `postfix` field — the fifth `Credential`
component — is named `postfixPart` here. -/
structure S3V4Params where
  access_key : String := ""
  date : String := ""
  region : String := ""
  service : String := ""
  postfixPart : String := ""
  signed_headers : List String := []
  signature : String := ""
deriving Repr, DecidableEq

/-- One iteration of the directive loop in `parse_authorization_header`:
`Credential` must split on `/` into at least five parts (fewer aborts the
whole parse through `?`), `SignedHeaders` splits on `;`, `Signature` is taken
verbatim, anything else is ignored. -/
def applyDirective (p : S3V4Params) (item : String) : Option S3V4Params :=
  match splitFirstStr '=' (trimStr item) with
  | some ("Credential", cred) =>
      match splitStr '/' cred with
      | ak :: d :: r :: sv :: pf :: _ =>
          some { p with access_key := ak, date := d, region := r,
                        service := sv, postfixPart := pf }
      | _ => none
  | some ("SignedHeaders", hs) => some { p with signed_headers := splitStr ';' hs }
  | some ("Signature", sig) => some { p with signature := sig }
  | _ => some p

/-- The directive-parsing phase of `parse_authorization_header`: read the
`authorization` header, drop everything up to the first space (the scheme
token is never examined), then fold the comma-separated directives over a
default `S3V4Params`. -/
def parseDirectives (header_map : Headers) : Option S3V4Params := do
  let auth ← hmGetStr header_map "authorization"
  let (_, rest) ← splitFirstStr ' ' auth
  (splitStr ',' rest).foldlM applyDirective {}

/-- Rust's `char::is_ascii_alphanumeric`. -/
def isAsciiAlphanumChar (c : Char) : Bool :=
  (48 ≤ c.toNat && c.toNat ≤ 57) || (65 ≤ c.toNat && c.toNat ≤ 90) ||
    (97 ≤ c.toNat && c.toNat ≤ 122)

/-- The validation phase of `parse_authorization_header`: reject an empty or
non-alphanumeric access key, and reject any declared signed header that is
absent from the actual header map. -/
def validateParams (header_map : Headers) (p : S3V4Params) : Option S3V4Params :=
  if p.access_key == "" then none
  else if p.access_key.data.any (fun ch => !(isAsciiAlphanumChar ch)) then none
  else if p.signed_headers.any (fun x => !(hmContains header_map x)) then none
  else some p

/-- `parse_authorization_header` from src/signature.rs: directive parsing
followed by the validations, `none` on any failure. -/
def parse_authorization_header (header_map : Headers) : Option S3V4Params :=
  (parseDirectives header_map).bind (validateParams header_map)

/-! ## `parse_date_time` (src/signature.rs) -/

/-- A parsed `YYYYMMDD'T'HHMMSS'Z'` timestamp. -/
structure DateTimeRec where
  year : Nat
  month : Nat
  day : Nat
  hour : Nat
  minute : Nat
  second : Nat
deriving Repr, DecidableEq

/-- Proleptic-Gregorian leap year, as the `time` crate uses. -/
def isLeapYear (y : Nat) : Bool := (y % 4 == 0 && y % 100 != 0) || y % 400 == 0

/-- Days in a month, for date validation. -/
def daysInMonth (y m : Nat) : Nat :=
  if m == 2 then (if isLeapYear y then 29 else 28)
  else if m == 4 || m == 6 || m == 9 || m == 11 then 30
  else 31

/-- Numeric value of an ASCII digit. -/
def digitVal (c : Char) : Option Nat :=
  if 48 ≤ c.toNat && c.toNat ≤ 57 then some (c.toNat - 48) else none

/-- Two-digit field. -/
def digits2 (a b : Char) : Option Nat := do
  let x ← digitVal a
  let y ← digitVal b
  pure (10 * x + y)

/-- `parse_date_time` from src/signature.rs: strict
`[year][month][day]T[hour][minute][second]Z` with component validation (the
`time` crate rejects out-of-range months, days, hours, minutes, seconds and
any trailing input). -/
def parse_date_time (s : String) : Option DateTimeRec :=
  match s.data with
  | [y1, y2, y3, y4, m1, m2, d1, d2, t, h1, h2, i1, i2, s1, s2, z] =>
      if t = 'T' && z = 'Z' then do
        let yh ← digits2 y1 y2
        let yl ← digits2 y3 y4
        let mo ← digits2 m1 m2
        let da ← digits2 d1 d2
        let ho ← digits2 h1 h2
        let mi ← digits2 i1 i2
        let se ← digits2 s1 s2
        let y := 100 * yh + yl
        if 1 ≤ mo && mo ≤ 12 && 1 ≤ da && da ≤ daysInMonth y mo &&
            ho ≤ 23 && mi ≤ 59 && se ≤ 59 then
          some ⟨y, mo, da, ho, mi, se⟩
        else none
      else none
  | _ => none

/-- Zero-padded two-digit rendering. -/
def pad2 (n : Nat) : String := if n < 10 then "0" ++ toString n else toString n

/-- Zero-padded four-digit rendering. -/
def pad4 (n : Nat) : String :=
  if n < 10 then "000" ++ toString n
  else if n < 100 then "00" ++ toString n
  else if n < 1000 then "0" ++ toString n
  else toString n

/-- The `YYYYMMDD` date the signer derives from the signing time. -/
def fmtDate (dt : DateTimeRec) : String := pad4 dt.year ++ pad2 dt.month ++ pad2 dt.day

/-- The `YYYYMMDD'T'HHMMSS'Z'` timestamp the signer derives from the signing
time. -/
def fmtTimestamp (dt : DateTimeRec) : String :=
  fmtDate dt ++ "T" ++ pad2 dt.hour ++ pad2 dt.minute ++ pad2 dt.second ++ "Z"

/-! ## The canonical signature computation

Modelled from the spec: `verify_headers` delegates the canonical-request
construction and the keyed-hash chain to `aws_sigv4::http_request::sign`,
which is an external crate, not code of this repository.  Spec §4.2 fixes the
algorithm (canonical request over the signed-header subset, payload hash in
an explicit content-hash header, string-to-sign from the credential scope and
the timestamp, the standard date/region/service key-derivation chain), and the
concrete scenario of §8 pins the output down to the byte; this model
reproduces that scenario exactly. -/

/-- Code-point lexicographic comparison of character lists. -/
def charListLe : List Char → List Char → Bool
  | [], _ => true
  | _ :: _, [] => false
  | x :: xs, y :: ys =>
      if x.toNat < y.toNat then true
      else if y.toNat < x.toNat then false
      else charListLe xs ys

/-- Code-point lexicographic comparison of strings. -/
def strLe (a b : String) : Bool := charListLe a.data b.data

/-- Insertion into a sorted list. -/
def insertSorted (le : α → α → Bool) (x : α) : List α → List α
  | [] => [x]
  | y :: ys => if le x y then x :: y :: ys else y :: insertSorted le x ys

/-- Insertion sort (stable). -/
def sortBy (le : α → α → Bool) : List α → List α
  | [] => []
  | x :: xs => insertSorted le x (sortBy le xs)

/-- Pieces of a string split on a separator, empty pieces dropped. -/
def wordsOn (sep : Char) (s : String) : List String :=
  (splitStr sep s).filter (fun w => w != "")

/-- AWS canonical header-value normalization: trim the ends and collapse runs
of spaces to one space. -/
def trimAllValue (s : String) : String := String.intercalate " " (wordsOn ' ' s)

/-- The characters SigV4 leaves unencoded. -/
def isUnreserved (c : Char) : Bool :=
  isAsciiAlphanumChar c || c = '-' || c = '_' || c = '.' || c = '~'

/-- Uppercase hexadecimal alphabet. -/
def hexUpper : List Char := "0123456789ABCDEF".data

/-- Percent-encode one character. -/
def encChar (c : Char) : List Char :=
  if isUnreserved c then [c]
  else ['%', hexUpper.getD (c.toNat / 16) '0', hexUpper.getD (c.toNat % 16) '0']

/-- SigV4 percent-encoding of a string. -/
def uriEncode (s : String) : String :=
  String.mk (s.data.foldr (fun c acc => encChar c ++ acc) [])

/-- The canonical query string: `k=v` pairs sorted by key. -/
def canonicalQuery (q : String) : String :=
  if q = "" then ""
  else
    let pairs := ((splitStr '&' q).filter (fun w => w != "")).map fun kv =>
      match splitFirstStr '=' kv with
      | some (k, v) => (uriEncode k, uriEncode v)
      | none => (uriEncode kv, "")
    let sorted := sortBy (fun a b => strLe a.1 b.1) pairs
    String.intercalate "&" (sorted.map (fun p => p.1 ++ "=" ++ p.2))

/-- The canonical header block: one `name:value` line per header, names
lowercased, values normalized, sorted by name. -/
def canonicalHeaderLines (hdrs : List (String × String)) : String :=
  String.join ((sortBy (fun a b => strLe a.1 b.1)
      (hdrs.map (fun kv => (lowerStr kv.1, trimAllValue kv.2)))).map
    (fun kv => kv.1 ++ ":" ++ kv.2 ++ "\n"))

/-- The `SignedHeaders` line of the canonical request: the lowercased names,
sorted, joined with `;`. -/
def signedHeadersLine (hdrs : List (String × String)) : String :=
  String.intercalate ";" (sortBy strLe (hdrs.map (fun kv => lowerStr kv.1)))

/-- Replace (or append) a header by lowercase name, as the signer does when it
sets `x-amz-date` and `x-amz-content-sha256` on the request it signs. -/
def upsertHeader (hdrs : List (String × String)) (name value : String) :
    List (String × String) :=
  (hdrs.filter (fun kv => lowerStr kv.1 != name)) ++ [(name, value)]

/-- The headers `verify_headers` configures the signer to exclude. -/
def excludedNames : List String := ["authorization", "user-agent", "x-amzn-trace-id"]

/-- The header set the signer actually signs: the given headers with
`x-amz-date` and `x-amz-content-sha256` set by the signer itself, minus the
excluded names. -/
def signingHeaderSet (hdrs : List (String × String)) (ts payloadHash : String) :
    List (String × String) :=
  (upsertHeader (upsertHeader hdrs "x-amz-date" ts) "x-amz-content-sha256"
      payloadHash).filter
    (fun kv => !(excludedNames.contains (lowerStr kv.1)))

/-- The SigV4 canonical request. -/
def canonicalRequest (method path query : String) (hdrs : List (String × String))
    (payloadHash : String) : String :=
  method ++ "\n" ++ path ++ "\n" ++ canonicalQuery query ++ "\n" ++
    canonicalHeaderLines hdrs ++ "\n" ++ signedHeadersLine hdrs ++ "\n" ++ payloadHash

/-- HMAC-SHA256 with a string message. -/
def hmacStr (key : List Nat) (msg : String) : List Nat := hmacSha256 key (strBytes msg)

/-- The SigV4 signing-key chain:
`HMAC(HMAC(HMAC(HMAC("AWS4" ++ secret, date), region), service), "aws4_request")`. -/
def deriveSigningKey (secret date region service : String) : List Nat :=
  hmacStr (hmacStr (hmacStr (hmacStr (strBytes ("AWS4" ++ secret)) date) region) service)
    "aws4_request"

/-- The full SigV4 signature of one request, as a lowercase hex string. -/
def sigv4Sign (method path query : String) (hdrs : List (String × String))
    (body : List Nat) (region service : String) (dt : DateTimeRec)
    (secret : String) : String :=
  let payloadHash := hexStr (sha256 body)
  let sh := signingHeaderSet hdrs (fmtTimestamp dt) payloadHash
  let cr := canonicalRequest method path query sh payloadHash
  let scope := fmtDate dt ++ "/" ++ region ++ "/" ++ service ++ "/aws4_request"
  let sts := "AWS4-HMAC-SHA256\n" ++ fmtTimestamp dt ++ "\n" ++ scope ++ "\n" ++
    hexStr (sha256 (strBytes cr))
  hexStr (hmacStr (deriveSigningKey secret (fmtDate dt) region service) sts)

/-- Modelled from the spec: the absolute request URL is parsed (inside
`SignableRequest::new`, by `http::Uri`, external to this repository) into its
path and query; `none` models a parse failure, which the source turns into a
panic through `.expect("host is not valid")`. -/
def parseUri (s : String) : Option (String × String) :=
  match splitFirstStr ':' s with
  | none => none
  | some (scheme, rest) =>
      if scheme = "" then none
      else
        match rest.data with
        | '/' :: '/' :: afterSS =>
            let auth := afterSS.takeWhile (fun c => c != '/' && c != '?')
            if auth = [] then none
            else
              match afterSS.drop auth.length with
              | [] => some ("/", "")
              | '?' :: q => some ("/", String.mk q)
              | rest2 =>
                  match splitFirstList '?' rest2 with
                  | none => some (String.mk rest2, "")
                  | some (p, q) => some (String.mk p, String.mk q)
        | _ => none

/-- Convert each selected header value with `to_str().unwrap()`; `none` models
the panic on a non-visible-ASCII value. -/
def headersToStr : List (String × List Nat) → Option (List (String × String))
  | [] => some []
  | kv :: rest => do
      let v ← toStrHV kv.2
      let tail ← headersToStr rest
      pure ((kv.1, v) :: tail)

/-- `verify_headers` from src/signature.rs.  Returns `some b` where the source
returns `b`, and `none` where the source panics: on a signed header value that
is not visible ASCII (`value.to_str().unwrap()`) or an unparsable request URL
(`.expect("host is not valid")`).  A missing or unparsable `x-amz-date`
header yields `some false` before either panic point, and a signing failure
yields `some false`, exactly as in the source. -/
def verify_headers (header_map : Headers) (params : S3V4Params)
    (http_method : String) (full_host : String) (secret_key : String)
    (bytes : List Nat) : Option Bool :=
  match (hmGet header_map "x-amz-date").bind toStrHV |>.bind parse_date_time with
  | none => some false
  | some dt =>
      let sel := header_map.filter (fun kv => params.signed_headers.contains kv.1)
      match headersToStr sel with
      | none => none
      | some hdrs =>
          match parseUri full_host with
          | none => none
          | some pq =>
              some (sigv4Sign http_method pq.1 pq.2 hdrs bytes params.region
                  params.service dt secret_key == params.signature)

/-! ## The repository's concrete signed-request vector

The header set of `verify_headers_correct_secret_test`. -/

/-- The authorization header value of the concrete scenario. -/
def testAuthValue : String :=
  "AWS4-HMAC-SHA256 Credential=ANOTREAL/20240203/us-west-2/s3/aws4_request, SignedHeaders=host;x-amz-content-sha256;x-amz-date;x-amz-user-agent, Signature=e5ad066e3aed7348f9151288c8e4fba48978931ae15f3d9f1247da06131e72e1"

/-- The request headers of the concrete scenario, in the test's insertion
order. -/
def testHeaderMap : Headers :=
  [("user-agent", strBytes "aws-sdk-rust/1.1.4 os/windows lang/rust/1.71.1"),
   ("x-amz-user-agent",
    strBytes "aws-sdk-rust/1.1.4 api/s3/1.14.0 os/windows lang/rust/1.71.1"),
   ("x-amz-date", strBytes "20240203T125727Z"),
   ("authorization", strBytes testAuthValue),
   ("x-amz-content-sha256",
    strBytes "e3b0c44298fc1c149afbf4c8996fb92427ae41e4649b934ca495991b7852b855"),
   ("amz-sdk-request", strBytes "attempt=1; max=3"),
   ("amz-sdk-invocation-id", strBytes "45ae4a4d-e614-4cfa-854e-108d396d444b"),
   ("host", strBytes "127.0.0.1:3000")]

/-- The params `parse_authorization_header` extracts from the scenario header
set (checked below to be exactly what the model parses). -/
def testParams : S3V4Params :=
  { access_key := "ANOTREAL", date := "20240203", region := "us-west-2",
    service := "s3", postfixPart := "aws4_request",
    signed_headers := ["host", "x-amz-content-sha256", "x-amz-date", "x-amz-user-agent"],
    signature := "e5ad066e3aed7348f9151288c8e4fba48978931ae15f3d9f1247da06131e72e1" }

/-- The full signed URL of the scenario. -/
def testUrl : String := "http://127.0.0.1:3000/?x-id=ListBuckets"

/-- The secret key of the scenario. -/
def testSecret : String := "notrealrnrELgWzOk3IfjzDKtFBhDby"

/-! ## The Request Gate: `VerifiedRequest::from_request` (src/signature.rs) -/

/-- An HTTP response as far as this subsystem shapes one: status code, headers
it sets, body bytes. -/
structure SimpleResponse where
  status : Nat
  headers : List (String × String)
  body : List Nat
deriving Repr, DecidableEq

/-- `String::into_response` (and `&str`): a body with a `text/plain` content
type; the callers then overwrite the status. -/
def stringResponse (status : Nat) (s : String) : SimpleResponse :=
  ⟨status, [("content-type", "text/plain; charset=utf-8")], strBytes s⟩

/-- `Response::default()` with only the status set, as the `Pool`/`Redis`
arms of `VerifiedRequestError::into_response` build. -/
def emptyResponse (status : Nat) : SimpleResponse := ⟨status, [], []⟩

/-- The authenticated context `from_request` emits (`VerifiedRequest` in the
source; the source's `namespace` field is named `nspace` here because
`namespace` is a Lean keyword). -/
structure VerifiedRequest where
  access_key : String
  nspace : String
  bytes : List Nat
deriving Repr, DecidableEq

/-- Result of the credential lookup round-trip `conn.get(..)`: a value, a
missing key, or a transport error. -/
inductive RedisResult where
  | ok (value : Option String)
  | err
deriving Repr, DecidableEq

/-- Result of `metadata_pool.get()`: a usable connection (modelled as its
lookup function) or a pool error. -/
inductive PoolResult where
  | ok (lookup : String → RedisResult)
  | err

/-- `VerifiedRequest::from_request`, parameterized by the signature verifier
so that "the verifier is never invoked on early failure" is expressible.
`none` models a panic escaping the verifier.  Stage order and the concrete
failure responses follow the source: unparsable header → 404 `"asdfag"`;
pool error → 500 empty; missing secret key → 404 `"secret key not found"`;
transport error → 500 empty; verification false → 401 `"not allowed :( "`. -/
def from_requestG
    (verifier : Headers → S3V4Params → String → String → String → List Nat → Option Bool)
    (pool : PoolResult) (external_host : String) (header_map : Headers)
    (http_method : String) (original_uri : String) (bytes : List Nat) :
    Option (Except SimpleResponse VerifiedRequest) :=
  match parse_authorization_header header_map with
  | none => some (.error (stringResponse 404 "asdfag"))
  | some params =>
      match pool with
      | .err => some (.error (emptyResponse 500))
      | .ok lookup =>
          match lookup ("secret_key::" ++ params.access_key) with
          | .ok none => some (.error (stringResponse 404 "secret key not found"))
          | .err => some (.error (emptyResponse 500))
          | .ok (some secret_key) =>
              match verifier header_map params http_method
                  (external_host ++ original_uri) secret_key bytes with
              | none => none
              | some false => some (.error (stringResponse 401 "not allowed :( "))
              | some true => some (.ok ⟨params.access_key, params.access_key, bytes⟩)

/-- The Request Gate as shipped: `from_requestG` applied to `verify_headers`. -/
def from_request :
    PoolResult → String → Headers → String → String → List Nat →
      Option (Except SimpleResponse VerifiedRequest) :=
  from_requestG verify_headers

/-! ## The Storage Router (src/api.rs) -/

/-- A handler outcome: either the response the handler built, or a
`RouteError` propagated with `?` (axum_route_error renders every converted
error as an internal-server-error response, so only its status matters
here). -/
inductive RouterResult where
  | response (r : SimpleResponse)
  | routeError (status : Nat)
deriving Repr, DecidableEq

/-- The status class of a handler outcome. -/
def RouterResult.status : RouterResult → Nat
  | .response r => r.status
  | .routeError s => s

/-- Object metadata as the router reads it back: content type and byte
length. -/
structure ObjMeta where
  contentType : Option String
  contentLength : Nat
deriving Repr, DecidableEq

/-- A backend failure: the key is absent, or the backend itself failed
(transient I/O, backend unavailable). -/
inductive StoreErr where
  | notFound
  | transient
deriving Repr, DecidableEq

/-- Modelled from the spec: the Object Store collaborator (spec §2, §4.4) is
external and pluggable, exposing exists/stat/write/read/create-directory
primitives keyed by path.  This concrete model stores directories and
objects under exact keys and reports a transient backend failure on any path
listed in `failPaths`. -/
structure MemStore where
  dirs : List String
  objects : List (String × (List Nat × Option String))
  failPaths : List String
deriving Repr, DecidableEq

/-- Backend `stat`. -/
def MemStore.statP (s : MemStore) (p : String) : Except StoreErr ObjMeta :=
  if s.failPaths.contains p then .error .transient
  else
    match s.objects.lookup p with
    | some obj => .ok ⟨obj.2, obj.1.length⟩
    | none => if s.dirs.contains p then .ok ⟨none, 0⟩ else .error .notFound

/-- Backend `is_exist`: stat with the not-found error mapped to `false`. -/
def MemStore.is_exist (s : MemStore) (p : String) : Except StoreErr Bool :=
  if s.failPaths.contains p then .error .transient
  else .ok ((s.objects.lookup p).isSome || s.dirs.contains p)

/-- Backend `write` (last write wins). -/
def MemStore.write (s : MemStore) (p : String) (bytes : List Nat)
    (ct : Option String) : Except StoreErr MemStore :=
  if s.failPaths.contains p then .error .transient
  else .ok { s with objects := (p, (bytes, ct)) :: s.objects.filter (fun kv => kv.1 != p) }

/-- Backend `read`. -/
def MemStore.readP (s : MemStore) (p : String) : Except StoreErr (List Nat) :=
  if s.failPaths.contains p then .error .transient
  else
    match s.objects.lookup p with
    | some obj => .ok obj.1
    | none => .error .notFound

/-- Backend `create_dir` (idempotent). -/
def MemStore.create_dir (s : MemStore) (p : String) : Except StoreErr MemStore :=
  if s.failPaths.contains p then .error .transient
  else .ok { s with dirs := if s.dirs.contains p then s.dirs else p :: s.dirs }

/-! The path strings the router hands to the Object Store, exactly as the
`format!` calls in src/api.rs build them. -/

/-- `format!("{}/", namespace)` — the lister path of `list_buckets` (line 29)
and the first `create_dir` of `create_bucket` (line 86). -/
def nsRootPath (ns : String) : String := ns ++ "/"

/-- `format!("{}/{}/", namespace, bucket_name)` — the second `create_dir` of
`create_bucket` (line 89). -/
def bucketDirPath (ns bucket : String) : String := ns ++ "/" ++ bucket ++ "/"

/-- `format!("{}/{}", namespace, bucket_name)` — the `is_exist` probe of
`create_object` (line 106) and `get_object` (line 142). -/
def bucketCheckPath (ns bucket : String) : String := ns ++ "/" ++ bucket

/-- `format!("{}/{}/{}", namespace, bucket_name, object_name)` — the write
path of `create_object` (line 113) and the stat/read path of `get_object`
(line 148). -/
def objectPath (ns bucket obj : String) : String :=
  ns ++ "/" ++ bucket ++ "/" ++ obj

/-- Every Object Store path `list_buckets(namespace)` touches. -/
def list_buckets_paths (ns : String) : List String := [nsRootPath ns]

/-- Every Object Store path `create_bucket(namespace, bucket)` touches. -/
def create_bucket_paths (ns bucket : String) : List String :=
  [nsRootPath ns, bucketDirPath ns bucket]

/-- Every Object Store path `create_object(namespace, bucket, object)`
touches. -/
def create_object_paths (ns bucket obj : String) : List String :=
  [bucketCheckPath ns bucket, objectPath ns bucket obj]

/-- Every Object Store path `get_object(namespace, bucket, object)`
touches. -/
def get_object_paths (ns bucket obj : String) : List String :=
  [bucketCheckPath ns bucket, objectPath ns bucket obj]

/-- A UTF-8 continuation byte. -/
def isContByte (b : Nat) : Bool := 128 ≤ b && b ≤ 191

/-- Strict UTF-8 decoding (the check behind `std::str::from_utf8`): rejects
overlong forms, surrogates and out-of-range code points.  The first argument
is recursion fuel (the byte count suffices). -/
def utf8DecodeAux : Nat → List Nat → Option (List Char)
  | _, [] => some []
  | 0, _ :: _ => none
  | fuel + 1, b0 :: rest =>
      if b0 < 128 then (utf8DecodeAux fuel rest).map (fun cs => Char.ofNat b0 :: cs)
      else if 194 ≤ b0 && b0 ≤ 223 then
        match rest with
        | b1 :: rest1 =>
            if isContByte b1 then
              (utf8DecodeAux fuel rest1).map
                (fun cs => Char.ofNat ((b0 - 192) * 64 + (b1 - 128)) :: cs)
            else none
        | _ => none
      else if 224 ≤ b0 && b0 ≤ 239 then
        match rest with
        | b1 :: b2 :: rest2 =>
            let lowOk :=
              if b0 == 224 then 160 ≤ b1 && b1 ≤ 191
              else if b0 == 237 then 128 ≤ b1 && b1 ≤ 159
              else isContByte b1
            if lowOk && isContByte b2 then
              (utf8DecodeAux fuel rest2).map
                (fun cs =>
                  Char.ofNat ((b0 - 224) * 4096 + (b1 - 128) * 64 + (b2 - 128)) :: cs)
            else none
        | _ => none
      else if 240 ≤ b0 && b0 ≤ 244 then
        match rest with
        | b1 :: b2 :: b3 :: rest3 =>
            let lowOk :=
              if b0 == 240 then 144 ≤ b1 && b1 ≤ 191
              else if b0 == 244 then 128 ≤ b1 && b1 ≤ 143
              else isContByte b1
            if lowOk && isContByte b2 && isContByte b3 then
              (utf8DecodeAux fuel rest3).map
                (fun cs =>
                  Char.ofNat ((b0 - 240) * 262144 + (b1 - 128) * 4096 +
                    (b2 - 128) * 64 + (b3 - 128)) :: cs)
            else none
        | _ => none
      else none

/-- `std::str::from_utf8`, as an `Option`-valued decoder. -/
def utf8Decode (bs : List Nat) : Option String :=
  (utf8DecodeAux bs.length bs).map String.mk

/-- `create_bucket` from src/api.rs.  `xmlParse` stands for
`quick_xml::de::from_str::<Option<CreateBucket>>` (an external crate):
`true` means the body deserialized.  A non-UTF-8 body or a deserialization
error propagates through `?` as a `RouteError`, which axum_route_error
renders as status 500; on success both `{namespace}/` and
`{namespace}/{bucket}/` are created as directories. -/
def create_bucket (xmlParse : String → Bool) (store : MemStore)
    (bucket_name : String) (ctx : VerifiedRequest) : RouterResult × MemStore :=
  let ns := ctx.nspace
  match utf8Decode ctx.bytes with
  | none => (.routeError 500, store)
  | some body =>
      if !(xmlParse body) then (.routeError 500, store)
      else
        match store.create_dir (nsRootPath ns) with
        | .error _ => (.routeError 500, store)
        | .ok s1 =>
            match s1.create_dir (bucketDirPath ns bucket_name) with
            | .error _ => (.routeError 500, s1)
            | .ok s2 => (.response (stringResponse 200 "OK"), s2)

/-- `create_object` from src/api.rs, including the source's inverted
existence guard: the handler returns 404 `"NOT FOUND"` when
`{namespace}/{bucket}` EXISTS and proceeds with the write when it does not.
The inbound `content-type` header is attached when present and `to_str`-able;
backend errors propagate as 500. -/
def create_object (store : MemStore) (bucket_name object_name : String)
    (header_map : Headers) (ctx : VerifiedRequest) : RouterResult × MemStore :=
  let ns := ctx.nspace
  match store.is_exist (bucketCheckPath ns bucket_name) with
  | .error _ => (.routeError 500, store)
  | .ok true => (.response (stringResponse 404 "NOT FOUND"), store)
  | .ok false =>
      let ct := (hmGet header_map "content-type").bind toStrHV
      match store.write (objectPath ns bucket_name object_name) ctx.bytes ct with
      | .error _ => (.routeError 500, store)
      | .ok s1 => (.response (stringResponse 200 "OK"), s1)

/-- `HeaderValue::from_str` validity: every byte of the rendered value must be
32..=255 except DEL, or tab (code points at or above 128 serialize to bytes
at or above 128, which `HeaderValue` accepts as opaque). -/
def isValidHeaderValueStr (s : String) : Bool :=
  s.data.all (fun c => c.toNat == 9 || (32 ≤ c.toNat && c.toNat != 127))

/-- `get_object` from src/api.rs, including the source's inverted existence
guard and its stat handling: ANY stat failure — the object being absent or a
transient backend failure alike — is answered with 404 `"NOT FOUND"` (the
source comments "maybe actually check if the error is not found :D"); a
reader failure or an invalid stored content type propagates as 500; on
success the response carries the content type (when stored) and the content
length. -/
def get_object (store : MemStore) (bucket_name object_name : String)
    (ctx : VerifiedRequest) : RouterResult :=
  let ns := ctx.nspace
  match store.is_exist (bucketCheckPath ns bucket_name) with
  | .error _ => .routeError 500
  | .ok true => .response (stringResponse 404 "NOT FOUND")
  | .ok false =>
      let filepath := objectPath ns bucket_name object_name
      match store.statP filepath with
      | .error _ => .response (stringResponse 404 "NOT FOUND")
      | .ok metadata =>
          match store.readP filepath with
          | .error _ => .routeError 500
          | .ok bytes =>
              match metadata.contentType with
              | some ct =>
                  if isValidHeaderValueStr ct then
                    .response ⟨200,
                      [("content-type", ct),
                       ("content-length", toString metadata.contentLength)], bytes⟩
                  else .routeError 500
              | none =>
                  .response ⟨200,
                    [("content-length", toString metadata.contentLength)], bytes⟩

/-- A full handler run: the Request Gate (with a pluggable verifier) followed
by a pluggable router body, as axum composes the `VerifiedRequest` extractor
with each handler.  On a gate failure the router body is never applied. -/
def handleWithG
    (verifier : Headers → S3V4Params → String → String → String → List Nat → Option Bool)
    (router : VerifiedRequest → RouterResult)
    (pool : PoolResult) (external_host : String) (header_map : Headers)
    (http_method : String) (original_uri : String) (bytes : List Nat) :
    Option RouterResult :=
  match from_requestG verifier pool external_host header_map http_method
      original_uri bytes with
  | none => none
  | some (.error resp) => some (.response resp)
  | some (.ok ctx) => some (router ctx)

/-! ## Concrete fixtures for witnesses and counterexamples -/

/-- The externally visible base URL configured for the scenario. -/
def testExternalHost : String := "http://127.0.0.1:3000"

/-- The original request URI of the scenario. -/
def testOriginalUri : String := "/?x-id=ListBuckets"

/-- A credential store holding exactly the scenario's access key. -/
def testPool : PoolResult :=
  .ok (fun k => if k == "secret_key::ANOTREAL" then .ok (some testSecret) else .ok none)

/-- A credential store that knows no access key. -/
def poolUnknownKey : PoolResult := .ok (fun _ => .ok none)

/-- A credential store whose every lookup fails with a transport error. -/
def poolRedisErr : PoolResult := .ok (fun _ => .err)

/-- The scenario's secret key with a trailing NUL byte appended — a different
string (and a different Redis value), representable both in a Rust `String`
and in a Redis entry. -/
def secretWithNul : String := testSecret ++ String.mk [Char.ofNat 0]

/-- The scenario header set with `x-amz-content-sha256` removed from the
actual headers while still listed in `SignedHeaders`
(`parse_authorization_header_missing_signed_headers_test`). -/
def testHeaderMapMissing : Headers :=
  testHeaderMap.filter (fun kv => kv.1 != "x-amz-content-sha256")

/-- An authorization value whose `Credential` has an empty access key
(`parse_authorization_header_invalid_access_key_test`). -/
def emptyKeyAuthValue : String :=
  "AWS4-HMAC-SHA256 Credential=/20240203/us-west-2/s3/aws4_request, SignedHeaders=host;x-amz-content-sha256;x-amz-date;x-amz-user-agent, Signature=e5ad066e3aed7348f9151288c8e4fba48978931ae15f3d9f1247da06131e72e1"

/-- A header map carrying only the empty-access-key authorization header. -/
def emptyKeyHeaderMap : Headers := [("authorization", strBytes emptyKeyAuthValue)]

/-- The directive list of the scenario's authorization header (everything
after the scheme token). -/
def testAuthDirectives : String :=
  "Credential=ANOTREAL/20240203/us-west-2/s3/aws4_request, SignedHeaders=host;x-amz-content-sha256;x-amz-date;x-amz-user-agent, Signature=e5ad066e3aed7348f9151288c8e4fba48978931ae15f3d9f1247da06131e72e1"

/-- The scenario header set without its authorization entry. -/
def otherHeaders : Headers :=
  testHeaderMap.filter (fun kv => kv.1 != "authorization")

/-- Headers whose declared signed header carries a non-visible-ASCII byte
(a `HeaderValue` a client can legitimately send). -/
def evilHeaders : Headers :=
  [("x-amz-date", strBytes "20240203T125727Z"), ("x-evil", [200])]

/-- Params declaring the opaque-valued header as signed. -/
def evilParams : S3V4Params :=
  { access_key := "EVIL", signed_headers := ["x-evil"] }

/-- A backend state in which `A/b` exists (as a directory entry under that
exact key, as a filesystem-like backend reports it). -/
def storeWithBucket : MemStore := ⟨["A/b"], [], []⟩

/-- The empty backend state. -/
def emptyStore : MemStore := ⟨[], [], []⟩

/-- A backend state whose only failure is a transient error on `A/b/o`. -/
def storeStatFails : MemStore := ⟨[], [], ["A/b/o"]⟩

/-- An authenticated context for namespace `A` with a two-byte body. -/
def ctxA : VerifiedRequest := ⟨"A", "A", [1, 2]⟩

/-! ## Path resolution, for the tenant-isolation analysis -/

/-- The `/`-separated segments of a backend path. -/
def pathSegs (p : String) : List String := splitStr '/' p

/-- One step of hierarchical path resolution: empty and `.` segments vanish,
`..` pops the last resolved segment, anything else descends. -/
def resolveStep (acc : List String) (s : String) : List String :=
  if s = "" || s = "." then acc
  else if s = ".." then acc.dropLast
  else acc ++ [s]

/-- Resolve a segment list. -/
def resolveSegs (l : List String) : List String := l.foldl resolveStep []

/-- Resolve a path string. -/
def resolvePath (p : String) : List String := resolveSegs (pathSegs p)

/-- A path stays inside namespace `ns` iff its resolution still starts with
the segment `ns`. -/
def underNamespace (ns p : String) : Bool :=
  match resolvePath p with
  | s :: _ => s == ns
  | [] => false

theorem splitList_ne_nil (sep : Char) (l : List Char) : splitList sep l ≠ [] := by
  cases l with
  | nil => simp [splitList]
  | cons c cs =>
      simp only [splitList]
      split
      · simp
      · cases h : splitList sep cs <;> simp [consHead]

theorem consHead_append (c : Char) (l t : List String) (h : l ≠ []) :
    consHead c (l ++ t) = consHead c l ++ t := by
  cases l with
  | nil => exact absurd rfl h
  | cons s rest => simp [consHead]

theorem splitList_sep_append (sep : Char) (xs ys : List Char) :
    splitList sep (xs ++ sep :: ys) = splitList sep xs ++ splitList sep ys := by
  induction xs with
  | nil => simp [splitList]
  | cons c cs ih =>
      simp only [List.cons_append, splitList]
      by_cases hc : c = sep
      · simp [hc, ih]
      · simp [hc, ih, consHead_append _ _ _ (splitList_ne_nil sep cs)]

theorem splitList_no_sep (sep : Char) (xs : List Char) (h : ∀ c ∈ xs, c ≠ sep) :
    splitList sep xs = [String.mk xs] := by
  induction xs with
  | nil => rfl
  | cons c cs ih =>
      have hc : c ≠ sep := h c (List.mem_cons_self c cs)
      have ih2 := ih (fun d hd => h d (List.mem_cons_of_mem c hd))
      simp [splitList, hc, ih2, consHead]

theorem resolve_no_dotdot (l : List String) (acc : List String)
    (h : ∀ s ∈ l, s ≠ "..") :
    l.foldl resolveStep acc = acc ++ l.filter (fun s => s != "" && s != ".") := by
  induction l generalizing acc with
  | nil => simp
  | cons s rest ih =>
      have hs : s ≠ ".." := h s (List.mem_cons_self s rest)
      have ih2 := fun (a : List String) =>
        ih a (fun t ht => h t (List.mem_cons_of_mem s ht))
      by_cases he : s = "" ∨ s = "."
      · have hstep : resolveStep acc s = acc := by
          rcases he with he | he <;> simp [resolveStep, he]
        have hfilter : (s != "" && s != ".") = false := by
          rcases he with he | he <;> simp [he]
        simp only [List.foldl_cons, hstep, List.filter_cons, hfilter]
        exact ih2 acc
      · push_neg at he
        have hstep : resolveStep acc s = acc ++ [s] := by
          simp [resolveStep, he.1, he.2, hs]
        have hfilter : (s != "" && s != ".") = true := by
          simp [he.1, he.2]
        simp only [List.foldl_cons, hstep, List.filter_cons, hfilter]
        rw [ih2]
        simp

/-- If a path splits as `ns` followed by traversal-free segments, it resolves
under `ns`. -/
theorem underNamespace_of_segs (ns p : String) (tail : List String)
    (hne : ns ≠ "") (hdot : ns ≠ ".") (hdots : ns ≠ "..")
    (ht : ∀ s ∈ tail, s ≠ "..") (hp : pathSegs p = ns :: tail) :
    underNamespace ns p = true := by
  unfold underNamespace resolvePath resolveSegs
  rw [hp]
  have h0 : resolveStep [] ns = [ns] := by simp [resolveStep, hne, hdot, hdots]
  rw [List.foldl_cons, h0, resolve_no_dotdot tail [ns] ht]
  simp

/-! ## Helper lemmas about the parsing and gate definitions -/

theorem string_mk_data (s : String) : String.mk s.data = s := rfl

theorem toStrHV_strBytes (s : String)
    (h : ∀ c ∈ s.data, isVisibleByte c.toNat = true) :
    toStrHV (strBytes s) = some s := by
  have hmap : ∀ l : List Char, (l.map Char.toNat).map Char.ofNat = l := by
    intro l
    induction l with
    | nil => rfl
    | cons c cs ih => simp [ih, Char.ofNat_toNat]
  unfold toStrHV strBytes
  rw [if_pos]
  · rw [hmap s.data, string_mk_data]
  · rw [List.all_eq_true]
    intro b hb
    obtain ⟨c, hc, rfl⟩ := List.mem_map.mp hb
    exact h c hc

theorem splitFirstList_mid (sep : Char) (xs ys : List Char)
    (h : ∀ c ∈ xs, c ≠ sep) :
    splitFirstList sep (xs ++ sep :: ys) = some (xs, ys) := by
  induction xs with
  | nil => simp [splitFirstList]
  | cons c cs ih =>
      have hc : c ≠ sep := h c (List.mem_cons_self c cs)
      simp [splitFirstList, hc, ih (fun d hd => h d (List.mem_cons_of_mem c hd))]

theorem hmContains_cons_val (n : String) (v1 v2 : List Nat) (t : Headers)
    (x : String) :
    hmContains ((n, v1) :: t) x = hmContains ((n, v2) :: t) x := by
  unfold hmContains hmGet
  simp only [List.find?]
  by_cases hx : (n == lowerStr x) = true
  · simp [hx]
  · simp [hx]

theorem validateParams_none_of_missing (hm : Headers) (p : S3V4Params)
    (h : ∃ x ∈ p.signed_headers, hmContains hm x = false) :
    validateParams hm p = none := by
  unfold validateParams
  split_ifs with h1 h2 h3
  · rfl
  · rfl
  · rfl
  · exfalso
    obtain ⟨x, hx, hcx⟩ := h
    exact h3 (List.any_eq_true.mpr ⟨x, hx, by simp [hcx]⟩)

theorem validateParams_none_of_key (hm : Headers) (p : S3V4Params)
    (h : p.access_key = "" ∨ ∃ c ∈ p.access_key.data, isAsciiAlphanumChar c = false) :
    validateParams hm p = none := by
  unfold validateParams
  split_ifs with h1 h2 h3
  · rfl
  · rfl
  · rfl
  · exfalso
    rcases h with h | ⟨c, hc, hcx⟩
    · exact h1 (by simp [h])
    · exact h2 (List.any_eq_true.mpr ⟨c, hc, by simp [hcx]⟩)

theorem validateParams_ok (hm : Headers) (p q : S3V4Params)
    (h : validateParams hm p = some q) :
    q = p ∧ p.access_key ≠ "" ∧
      (∀ c ∈ p.access_key.data, isAsciiAlphanumChar c = true) := by
  unfold validateParams at h
  split_ifs at h with h1 h2 h3
  cases h
  refine ⟨rfl, by simpa using h1, ?_⟩
  intro c hc
  by_contra hbad
  exact h2 (List.any_eq_true.mpr ⟨c, hc, by simp [hbad]⟩)

theorem parse_ok_facts (hm : Headers) (p : S3V4Params)
    (h : parse_authorization_header hm = some p) :
    p.access_key ≠ "" ∧ ∀ c ∈ p.access_key.data, isAsciiAlphanumChar c = true := by
  unfold parse_authorization_header at h
  cases hd : parseDirectives hm with
  | none => rw [hd] at h; exact absurd h (by simp)
  | some q =>
      rw [hd] at h
      obtain ⟨hqp, hne, hal⟩ := validateParams_ok hm q p h
      rw [hqp]
      exact ⟨hne, hal⟩

theorem from_requestG_ok_params
    (v : Headers → S3V4Params → String → String → String → List Nat → Option Bool)
    (pool : PoolResult) (eh : String) (hm : Headers) (m u : String)
    (b : List Nat) (ctx : VerifiedRequest)
    (h : from_requestG v pool eh hm m u b = some (Except.ok ctx)) :
    ∃ params, parse_authorization_header hm = some params ∧
      ctx.access_key = params.access_key ∧ ctx.nspace = params.access_key ∧
      ctx.bytes = b := by
  unfold from_requestG at h
  split at h
  · exact absurd h (by simp)
  · rename_i params hp
    split at h
    · exact absurd h (by simp)
    · split at h
      · exact absurd h (by simp)
      · exact absurd h (by simp)
      · split at h
        · exact absurd h (by simp)
        · exact absurd h (by simp)
        · simp only [Option.some_inj, Except.ok.injEq] at h
          refine ⟨params, hp, ?_⟩
          rw [← h]
          exact ⟨rfl, rfl, rfl⟩

theorem from_requestG_error_cases
    (v : Headers → S3V4Params → String → String → String → List Nat → Option Bool)
    (pool : PoolResult) (eh : String) (hm : Headers) (m u : String)
    (b : List Nat) (r : SimpleResponse)
    (h : from_requestG v pool eh hm m u b = some (Except.error r)) :
    r = stringResponse 404 "asdfag" ∨ r = emptyResponse 500 ∨
      r = stringResponse 404 "secret key not found" ∨
      r = stringResponse 401 "not allowed :( " := by
  unfold from_requestG at h
  split at h
  · simp only [Option.some_inj, Except.error.injEq] at h
    exact Or.inl h.symm
  · split at h
    · simp only [Option.some_inj, Except.error.injEq] at h
      exact Or.inr (Or.inl h.symm)
    · split at h
      · simp only [Option.some_inj, Except.error.injEq] at h
        exact Or.inr (Or.inr (Or.inl h.symm))
      · simp only [Option.some_inj, Except.error.injEq] at h
        exact Or.inr (Or.inl h.symm)
      · split at h
        · exact absurd h (by simp)
        · simp only [Option.some_inj, Except.error.injEq] at h
          exact Or.inr (Or.inr (Or.inr h.symm))
        · exact absurd h (by simp)

theorem list_any_congr {α : Type} (p q : α → Bool) (l : List α)
    (h : ∀ a ∈ l, p a = q a) : l.any p = l.any q := by
  induction l with
  | nil => rfl
  | cons x xs ih =>
      simp only [List.any_cons, h x (List.mem_cons_self x xs),
        ih (fun a ha => h a (List.mem_cons_of_mem x ha))]

theorem validateParams_congr (hm1 hm2 : Headers) (p : S3V4Params)
    (h : ∀ x ∈ p.signed_headers, hmContains hm1 x = hmContains hm2 x) :
    validateParams hm1 p = validateParams hm2 p := by
  unfold validateParams
  rw [list_any_congr (fun x => !hmContains hm1 x) (fun x => !hmContains hm2 x)
    p.signed_headers (fun x hx => by simp only [h x hx])]

theorem parseDirectives_scheme (scheme rest : String) (others : Headers)
    (h1 : ∀ c ∈ scheme.data, isVisibleByte c.toNat = true ∧ c ≠ ' ')
    (hr : ∀ c ∈ rest.data, isVisibleByte c.toNat = true) :
    parseDirectives (("authorization", strBytes (scheme ++ " " ++ rest)) :: others) =
      (splitStr ',' rest).foldlM applyDirective {} := by
  have hvis : ∀ c ∈ (scheme ++ " " ++ rest).data, isVisibleByte c.toNat = true := by
    intro c hc
    rw [show (scheme ++ " " ++ rest).data = scheme.data ++ ' ' :: rest.data by
      simp [String.data_append]] at hc
    rcases List.mem_append.mp hc with hc | hc
    · exact (h1 c hc).1
    · rcases List.mem_cons.mp hc with rfl | hc
      · decide
      · exact hr c hc
  have hgs : hmGetStr (("authorization", strBytes (scheme ++ " " ++ rest)) :: others)
      "authorization" = some (scheme ++ " " ++ rest) := by
    have hget : hmGet (("authorization", strBytes (scheme ++ " " ++ rest)) :: others)
        "authorization" = some (strBytes (scheme ++ " " ++ rest)) := rfl
    unfold hmGetStr
    rw [hget]
    exact toStrHV_strBytes _ hvis
  have hsplit : splitFirstStr ' ' (scheme ++ " " ++ rest) = some (scheme, rest) := by
    unfold splitFirstStr
    rw [show (scheme ++ " " ++ rest).data = scheme.data ++ ' ' :: rest.data by
      simp [String.data_append]]
    rw [splitFirstList_mid ' ' scheme.data rest.data (fun c hc => (h1 c hc).2)]
    simp [string_mk_data]
  unfold parseDirectives
  rw [hgs]
  show (splitFirstStr ' ' (scheme ++ " " ++ rest)).bind _ = _
  rw [hsplit]
  rfl

theorem ns_facts (ns : String) (hne : ns ≠ "")
    (hal : ∀ c ∈ ns.data, isAsciiAlphanumChar c = true) :
    (∀ c ∈ ns.data, c ≠ '/') ∧ ns ≠ "." ∧ ns ≠ ".." := by
  refine ⟨fun c hc heq => ?_, fun h => ?_, fun h => ?_⟩
  · have hx := hal c hc
    rw [heq] at hx
    exact absurd hx (by decide)
  · subst h
    exact absurd (hal '.' (by decide)) (by decide)
  · subst h
    exact absurd (hal '.' (by decide)) (by decide)

theorem under_ns_data (ns p : String) (tailChars : List Char)
    (hdata : p.data = ns.data ++ '/' :: tailChars)
    (hne : ns ≠ "") (hal : ∀ c ∈ ns.data, isAsciiAlphanumChar c = true)
    (ht : ∀ s ∈ splitList '/' tailChars, s ≠ "..") :
    underNamespace ns p = true := by
  obtain ⟨hslash, hdot, hdots⟩ := ns_facts ns hne hal
  have hsegs : pathSegs p = ns :: splitList '/' tailChars := by
    unfold pathSegs splitStr
    rw [hdata, splitList_sep_append, splitList_no_sep '/' ns.data hslash,
      string_mk_data]
    rfl
  exact underNamespace_of_segs ns p _ hne hdot hdots ht hsegs

theorem nsRootPath_data (ns : String) :
    (nsRootPath ns).data = ns.data ++ '/' :: ([] : List Char) := by
  simp [nsRootPath, String.data_append]

theorem bucketCheckPath_data (ns b : String) :
    (bucketCheckPath ns b).data = ns.data ++ '/' :: b.data := by
  simp [bucketCheckPath, String.data_append]

theorem bucketDirPath_data (ns b : String) :
    (bucketDirPath ns b).data = ns.data ++ '/' :: (b.data ++ ['/']) := by
  simp [bucketDirPath, String.data_append]

theorem objectPath_data (ns b o : String) :
    (objectPath ns b o).data = ns.data ++ '/' :: (b.data ++ '/' :: o.data) := by
  simp [objectPath, String.data_append]

theorem under_root (ns : String) (hne : ns ≠ "")
    (hal : ∀ c ∈ ns.data, isAsciiAlphanumChar c = true) :
    underNamespace ns (nsRootPath ns) = true := by
  refine under_ns_data ns _ [] (nsRootPath_data ns) hne hal ?_
  decide

theorem under_bucketCheck (ns b : String) (hne : ns ≠ "")
    (hal : ∀ c ∈ ns.data, isAsciiAlphanumChar c = true)
    (hb : ∀ s ∈ pathSegs b, s ≠ "..") :
    underNamespace ns (bucketCheckPath ns b) = true :=
  under_ns_data ns _ b.data (bucketCheckPath_data ns b) hne hal hb

theorem under_bucketDir (ns b : String) (hne : ns ≠ "")
    (hal : ∀ c ∈ ns.data, isAsciiAlphanumChar c = true)
    (hb : ∀ s ∈ pathSegs b, s ≠ "..") :
    underNamespace ns (bucketDirPath ns b) = true := by
  refine under_ns_data ns _ _ (bucketDirPath_data ns b) hne hal ?_
  intro s hs
  rw [show (b.data ++ ['/']) = b.data ++ '/' :: [] from rfl,
    splitList_sep_append] at hs
  rcases List.mem_append.mp hs with hs | hs
  · exact hb s hs
  · simp only [splitList] at hs
    rcases List.mem_singleton.mp hs with rfl
    decide

theorem under_object (ns b o : String) (hne : ns ≠ "")
    (hal : ∀ c ∈ ns.data, isAsciiAlphanumChar c = true)
    (hb : ∀ s ∈ pathSegs b, s ≠ "..") (ho : ∀ s ∈ pathSegs o, s ≠ "..") :
    underNamespace ns (objectPath ns b o) = true := by
  refine under_ns_data ns _ _ (objectPath_data ns b o) hne hal ?_
  intro s hs
  rw [splitList_sep_append] at hs
  rcases List.mem_append.mp hs with hs | hs
  · exact hb s hs
  · exact ho s hs

/-! ## The claims -/

/-- C2: evaluation of `create_object` and `get_object` at the failing inputs.
The claim (and spec §4.4) says: if `{namespace}/{bucket}` does not exist the
operation returns not-found WITHOUT the object write, and if it exists the
operation proceeds.  The code does the exact opposite — the existence guard
is inverted (spec §9 itself flags this as a defect): with `A/b` present both
operations answer 404 and the write never happens, and with `A/b` absent the
write proceeds. -/
theorem C2_inverted_existence_guard :
    create_object storeWithBucket "b" "o" [] ctxA =
        (.response (stringResponse 404 "NOT FOUND"), storeWithBucket) ∧
    get_object storeWithBucket "b" "o" ctxA =
        .response (stringResponse 404 "NOT FOUND") ∧
    create_object emptyStore "b" "o" [] ctxA =
        (.response (stringResponse 200 "OK"),
          (⟨[], [("A/b/o", ([1, 2], none))], []⟩ : MemStore)) := by
  refine ⟨rfl, rfl, rfl⟩

/-- C9 counterexample: a present but non-deserializing create-bucket body is
answered with status 500 (Internal), not the claimed BadRequest class; and a
transient backend failure on the `get_object` stat is answered 404
(NotFound), not the claimed Internal class. -/
theorem C9_counterexample :
    (create_bucket (fun _ => false) emptyStore "b" ⟨"A", "A", strBytes "<"⟩ =
        (.routeError 500, emptyStore) ∧
      (RouterResult.routeError 500).status ≠ 400) ∧
    (get_object storeStatFails "b" "o" ctxA =
        .response (stringResponse 404 "NOT FOUND") ∧
      (RouterResult.response (stringResponse 404 "NOT FOUND")).status ≠ 500) := by
  exact ⟨⟨rfl, by decide⟩, ⟨rfl, by decide⟩⟩

/-- C9 (amended): the absent-object class is NotFound as claimed, but a
malformed create-bucket body is answered with the Internal class (500, via
the blanket `RouteError` conversion), not BadRequest; and EVERY stat failure
on the object path — absence and transient backend failure alike — is
answered 404, so a transient stat error lands in the NotFound class, not
Internal.  A failure of the existence probe, and a failure of the reader
after a successful stat, do propagate as 500 (Internal). -/
theorem C9_router_failure_classes (xmlParse : String → Bool) (store : MemStore)
    (bucket obj body : String) (ctx : VerifiedRequest) :
    (utf8Decode ctx.bytes = some body → xmlParse body = false →
      create_bucket xmlParse store bucket ctx = (.routeError 500, store)) ∧
    (∀ e, store.is_exist (bucketCheckPath ctx.nspace bucket) = .ok false →
      store.statP (objectPath ctx.nspace bucket obj) = .error e →
      get_object store bucket obj ctx = .response (stringResponse 404 "NOT FOUND")) ∧
    (store.is_exist (bucketCheckPath ctx.nspace bucket) = .error .transient →
      get_object store bucket obj ctx = .routeError 500) ∧
    (∀ meta e, store.is_exist (bucketCheckPath ctx.nspace bucket) = .ok false →
      store.statP (objectPath ctx.nspace bucket obj) = .ok meta →
      store.readP (objectPath ctx.nspace bucket obj) = .error e →
      get_object store bucket obj ctx = .routeError 500) := by
  refine ⟨?_, ?_, ?_, ?_⟩
  · intro h1 h2
    simp [create_bucket, h1, h2]
  · intro e h1 h2
    simp [get_object, h1, h2]
  · intro h1
    simp [get_object, h1]
  · intro meta e h1 h2 h3
    simp [get_object, h1, h2, h3]

/-- C9 witness: the amended classification at concrete inputs — malformed
body on the empty store, a transient stat failure, a failing existence
probe, and a reader failure after a successful stat (the stat finds a
directory entry at the object path, the read then fails). -/
theorem C9_witness :
    create_bucket (fun _ => false) emptyStore "b2" ⟨"A", "A", strBytes "<x"⟩ =
        (.routeError 500, emptyStore) ∧
    get_object storeStatFails "b" "o" ctxA =
        .response (stringResponse 404 "NOT FOUND") ∧
    get_object (⟨[], [], ["A/b"]⟩ : MemStore) "b" "o" ctxA = .routeError 500 ∧
    get_object (⟨["A/b/o"], [], []⟩ : MemStore) "b" "o" ctxA = .routeError 500 := by
  refine ⟨(C9_router_failure_classes (fun _ => false) emptyStore "b2" "o" "<x"
      ⟨"A", "A", strBytes "<x"⟩).1 rfl rfl,
    (C9_router_failure_classes (fun _ => false) storeStatFails "b" "o" ""
      ctxA).2.1 StoreErr.transient rfl rfl,
    (C9_router_failure_classes (fun _ => false) (⟨[], [], ["A/b"]⟩ : MemStore)
      "b" "o" "" ctxA).2.2.1 rfl,
    (C9_router_failure_classes (fun _ => false) (⟨["A/b/o"], [], []⟩ : MemStore)
      "b" "o" "" ctxA).2.2.2 ⟨none, 0⟩ StoreErr.notFound rfl rfl rfl⟩

/-- C8 counterexample: the two NotFound-class failures are NOT identical in
body — the unparsable-header failure answers `asdfag` while the unknown-key
failure answers `secret key not found`, so the response body does distinguish
the underlying cause. -/
theorem C8_counterexample :
    from_request poolUnknownKey testExternalHost [] "GET" "/" [] =
        some (.error (stringResponse 404 "asdfag")) ∧
    from_request poolUnknownKey testExternalHost testHeaderMap "GET"
        testOriginalUri [] =
      some (.error (stringResponse 404 "secret key not found")) ∧
    (stringResponse 404 "asdfag").body ≠
      (stringResponse 404 "secret key not found").body := by
  refine ⟨rfl, rfl, by decide⟩

/-- C8 (amended): the two NotFound-class failures agree in status and in the
headers this subsystem sets (a text/plain content type), and the Unauthorized
class is distinguishable by status; but each failure carries its own fixed
body (`asdfag`, `secret key not found`, `not allowed :( `), so bodies do
distinguish the cause. -/
theorem C8_failure_response_shape
    (v : Headers → S3V4Params → String → String → String → List Nat → Option Bool)
    (pool : PoolResult) (eh : String) (hm : Headers) (m u : String)
    (b : List Nat) (r : SimpleResponse)
    (h : from_requestG v pool eh hm m u b = some (Except.error r)) :
    (r.status = 404 →
      r.headers = [("content-type", "text/plain; charset=utf-8")] ∧
        (r.body = strBytes "asdfag" ∨ r.body = strBytes "secret key not found")) ∧
    (r.status = 401 → r.body = strBytes "not allowed :( ") := by
  rcases from_requestG_error_cases v pool eh hm m u b r h with h1 | h1 | h1 | h1 <;>
    subst h1
  · exact ⟨fun _ => ⟨rfl, Or.inl rfl⟩, fun hc => absurd hc (by decide)⟩
  · exact ⟨fun hc => absurd hc (by decide), fun hc => absurd hc (by decide)⟩
  · exact ⟨fun _ => ⟨rfl, Or.inr rfl⟩, fun hc => absurd hc (by decide)⟩
  · exact ⟨fun hc => absurd hc (by decide), fun _ => rfl⟩

/-- C8 witness: the amended response shape at a concrete unknown-key
failure. -/
theorem C8_witness :
    (stringResponse 404 "secret key not found").headers =
      [("content-type", "text/plain; charset=utf-8")] := by
  have h := C8_failure_response_shape verify_headers poolUnknownKey
      testExternalHost testHeaderMap "GET" testOriginalUri []
      (stringResponse 404 "secret key not found") rfl
  exact (h.1 rfl).1

/-- C6: the Request Gate's failure classification, stage by stage — an absent
or unparsable authorization header answers 404 (`asdfag`); a parsed access
key unknown to the credential store answers 404 (`secret key not found`); a
failed signature comparison answers 401; a pool failure or a transport
failure of the credential store answers 500; and on each failure the router
body is never applied (the handler result is the gate's response for every
router). -/
theorem C6_gate_classification
    (v : Headers → S3V4Params → String → String → String → List Nat → Option Bool)
    (pool : PoolResult) (eh : String) (hm : Headers) (m u : String)
    (b : List Nat) :
    (parse_authorization_header hm = none →
      from_requestG v pool eh hm m u b = some (.error (stringResponse 404 "asdfag")) ∧
      ∀ router, handleWithG v router pool eh hm m u b =
        some (.response (stringResponse 404 "asdfag"))) ∧
    (∀ params lookup, parse_authorization_header hm = some params →
      pool = .ok lookup →
      lookup ("secret_key::" ++ params.access_key) = .ok none →
      from_requestG v pool eh hm m u b =
        some (.error (stringResponse 404 "secret key not found")) ∧
      ∀ router, handleWithG v router pool eh hm m u b =
        some (.response (stringResponse 404 "secret key not found"))) ∧
    (∀ params lookup secret, parse_authorization_header hm = some params →
      pool = .ok lookup →
      lookup ("secret_key::" ++ params.access_key) = .ok (some secret) →
      v hm params m (eh ++ u) secret b = some false →
      from_requestG v pool eh hm m u b =
        some (.error (stringResponse 401 "not allowed :( ")) ∧
      ∀ router, handleWithG v router pool eh hm m u b =
        some (.response (stringResponse 401 "not allowed :( "))) ∧
    (∀ params, parse_authorization_header hm = some params → pool = .err →
      from_requestG v pool eh hm m u b = some (.error (emptyResponse 500)) ∧
      ∀ router, handleWithG v router pool eh hm m u b =
        some (.response (emptyResponse 500))) ∧
    (∀ params lookup, parse_authorization_header hm = some params →
      pool = .ok lookup →
      lookup ("secret_key::" ++ params.access_key) = .err →
      from_requestG v pool eh hm m u b = some (.error (emptyResponse 500)) ∧
      ∀ router, handleWithG v router pool eh hm m u b =
        some (.response (emptyResponse 500))) := by
  refine ⟨?_, ?_, ?_, ?_, ?_⟩
  · intro hp
    exact ⟨by simp [from_requestG, hp], fun router => by
      simp [handleWithG, from_requestG, hp]⟩
  · intro params lookup hp hpool hl
    subst hpool
    exact ⟨by simp [from_requestG, hp, hl], fun router => by
      simp [handleWithG, from_requestG, hp, hl]⟩
  · intro params lookup secret hp hpool hl hv
    subst hpool
    exact ⟨by simp [from_requestG, hp, hl, hv], fun router => by
      simp [handleWithG, from_requestG, hp, hl, hv]⟩
  · intro params hp hpool
    subst hpool
    exact ⟨by simp [from_requestG, hp], fun router => by
      simp [handleWithG, from_requestG, hp]⟩
  · intro params lookup hp hpool hl
    subst hpool
    exact ⟨by simp [from_requestG, hp, hl], fun router => by
      simp [handleWithG, from_requestG, hp, hl]⟩

/-- C6 witness: the classification at concrete failures of every stage —
missing header, unknown key, rejected signature, pool failure, transport
failure — with the router body never reached. -/
theorem C6_witness :
    from_request PoolResult.err testExternalHost [] "GET" "/" [] =
        some (.error (stringResponse 404 "asdfag")) ∧
    handleWithG verify_headers (fun _ => .routeError 0) PoolResult.err
        testExternalHost [] "GET" "/" [] =
      some (.response (stringResponse 404 "asdfag")) ∧
    from_requestG verify_headers poolUnknownKey testExternalHost testHeaderMap
        "GET" testOriginalUri [] =
      some (.error (stringResponse 404 "secret key not found")) ∧
    from_requestG (fun _ _ _ _ _ _ => some false) testPool testExternalHost
        testHeaderMap "GET" testOriginalUri [] =
      some (.error (stringResponse 401 "not allowed :( ")) ∧
    from_requestG verify_headers PoolResult.err testExternalHost testHeaderMap
        "GET" testOriginalUri [] =
      some (.error (emptyResponse 500)) ∧
    from_requestG verify_headers poolRedisErr testExternalHost testHeaderMap
        "GET" testOriginalUri [] =
      some (.error (emptyResponse 500)) := by
  have h1 := (C6_gate_classification verify_headers PoolResult.err
      testExternalHost [] "GET" "/" []).1 rfl
  have h2 := (C6_gate_classification verify_headers poolUnknownKey
      testExternalHost testHeaderMap "GET" testOriginalUri []).2.1
      testParams _ rfl rfl rfl
  have h3 := (C6_gate_classification (fun _ _ _ _ _ _ => some false) testPool
      testExternalHost testHeaderMap "GET" testOriginalUri []).2.2.1
      testParams _ testSecret rfl rfl rfl rfl
  have h4 := (C6_gate_classification verify_headers PoolResult.err
      testExternalHost testHeaderMap "GET" testOriginalUri []).2.2.2.1
      testParams rfl rfl
  have h5 := (C6_gate_classification verify_headers poolRedisErr
      testExternalHost testHeaderMap "GET" testOriginalUri []).2.2.2.2
      testParams _ rfl rfl rfl
  exact ⟨h1.1, h1.2 _, h2.1, h3.1, h4.1, h5.1⟩

/-- C4: whenever the directive phase parses an authorization header that
declares a signed-header name absent from the actual header set,
`parse_authorization_header` returns none, and the gate then answers 404
without ever invoking the verifier — the gate's result is the same for every
verifier function. -/
theorem C4_missing_declared_header (hm : Headers) (p : S3V4Params)
    (hd : parseDirectives hm = some p)
    (hmiss : ∃ x ∈ p.signed_headers, hmContains hm x = false) :
    parse_authorization_header hm = none ∧
    ∀ v1 v2 pool eh m u b,
      from_requestG v1 pool eh hm m u b =
          some (.error (stringResponse 404 "asdfag")) ∧
      from_requestG v1 pool eh hm m u b = from_requestG v2 pool eh hm m u b := by
  have hnone : parse_authorization_header hm = none := by
    unfold parse_authorization_header
    rw [hd]
    exact validateParams_none_of_missing hm p hmiss
  refine ⟨hnone, fun v1 v2 pool eh m u b => ?_⟩
  constructor
  · simp [from_requestG, hnone]
  · simp [from_requestG, hnone]

/-- C4 witness: the scenario header set with `x-amz-content-sha256` removed
while still declared in `SignedHeaders` is rejected at the parser, and two
verifiers that disagree everywhere still produce the same gate result. -/
theorem C4_witness :
    parse_authorization_header testHeaderMapMissing = none ∧
    from_requestG (fun _ _ _ _ _ _ => some true) testPool testExternalHost
        testHeaderMapMissing "GET" testOriginalUri [] =
      from_requestG (fun _ _ _ _ _ _ => some false) testPool testExternalHost
        testHeaderMapMissing "GET" testOriginalUri [] := by
  have h := C4_missing_declared_header testHeaderMapMissing testParams rfl
    ⟨"x-amz-content-sha256", by decide, rfl⟩
  exact ⟨h.1, (h.2 _ _ testPool testExternalHost "GET" testOriginalUri []).2⟩

/-- C7: whenever the directive phase yields an empty access key, or one
containing any character that is not ASCII-alphanumeric,
`parse_authorization_header` returns none regardless of the rest of the
header. -/
theorem C7_access_key_rejected (hm : Headers) (p : S3V4Params)
    (hd : parseDirectives hm = some p)
    (hbad : p.access_key = "" ∨
      ∃ c ∈ p.access_key.data, isAsciiAlphanumChar c = false) :
    parse_authorization_header hm = none := by
  unfold parse_authorization_header
  rw [hd]
  exact validateParams_none_of_key hm p hbad

/-- C7 witness: the repository's empty-access-key header
(`Credential=/20240203/…`) is rejected. -/
theorem C7_witness : parse_authorization_header emptyKeyHeaderMap = none := by
  exact C7_access_key_rejected emptyKeyHeaderMap
    { access_key := "", date := "20240203", region := "us-west-2",
      service := "s3", postfixPart := "aws4_request",
      signed_headers := ["host", "x-amz-content-sha256", "x-amz-date",
        "x-amz-user-agent"],
      signature :=
        "e5ad066e3aed7348f9151288c8e4fba48978931ae15f3d9f1247da06131e72e1" }
    rfl (Or.inl rfl)

/-- C5 counterexample: `verify_headers` is NOT total — on a signed header
whose value carries an opaque byte (here 200, which a client may send in a
`HeaderValue`), the `value.to_str().unwrap()` inside the signable-request
construction panics instead of returning false; the model returns `none`
(panic), not a boolean. -/
theorem C5_counterexample :
    verify_headers evilHeaders evilParams "GET" testUrl "anything" [] = none := by
  rfl

/-- C5 (amended): a missing or unparsable `x-amz-date` yields false
(fail-closed), and the verifier returns a boolean whenever every selected
signed-header value converts with `to_str` and the request URL parses; but a
non-visible-ASCII signed-header value or an unparsable URL panics
(`.unwrap()` / `.expect("host is not valid")`) instead of yielding false. -/
theorem C5_fail_closed_domain (hm : Headers) (params : S3V4Params)
    (m url secret : String) (b : List Nat) :
    (((hmGet hm "x-amz-date").bind toStrHV).bind parse_date_time = none →
      verify_headers hm params m url secret b = some false) ∧
    (∀ hdrs pq,
      headersToStr (hm.filter (fun kv => params.signed_headers.contains kv.1)) =
          some hdrs →
      parseUri url = some pq →
      ∃ result, verify_headers hm params m url secret b = some result) := by
  constructor
  · intro hdt
    simp [verify_headers, hdt]
  · intro hdrs pq hh hu
    rcases hdt : ((hmGet hm "x-amz-date").bind toStrHV).bind parse_date_time with
      _ | dt
    · exact ⟨false, by simp [verify_headers, hdt]⟩
    · refine ⟨sigv4Sign m pq.1 pq.2 hdrs b params.region params.service dt
        secret == params.signature, ?_⟩
      simp only [verify_headers, hdt, hh, hu]

/-- C5 witness: fail-closed on a missing timestamp, and totality on a
well-formed selection. -/
theorem C5_witness :
    verify_headers [] evilParams "GET" testUrl "s" [] = some false ∧
    ∃ result, verify_headers [("a", strBytes "v")]
        { access_key := "X", signed_headers := ["a"] } "GET" testUrl "s" [] =
      some result := by
  refine ⟨(C5_fail_closed_domain [] evilParams "GET" testUrl "s" []).1 rfl,
    (C5_fail_closed_domain [("a", strBytes "v")]
        { access_key := "X", signed_headers := ["a"] } "GET" testUrl "s" []).2
      [("a", "v")] ("/", "x-id=ListBuckets") rfl rfl⟩

/-- C10: the scheme token of the authorization header is discarded
unexamined — for any two space-free visible-ASCII scheme tokens in front of
the same directive list, parsing gives the identical result. -/
theorem C10_scheme_ignored (scheme1 scheme2 rest : String) (others : Headers)
    (h1 : ∀ c ∈ scheme1.data, isVisibleByte c.toNat = true ∧ c ≠ ' ')
    (h2 : ∀ c ∈ scheme2.data, isVisibleByte c.toNat = true ∧ c ≠ ' ')
    (hr : ∀ c ∈ rest.data, isVisibleByte c.toNat = true) :
    parse_authorization_header
        (("authorization", strBytes (scheme1 ++ " " ++ rest)) :: others) =
      parse_authorization_header
        (("authorization", strBytes (scheme2 ++ " " ++ rest)) :: others) := by
  unfold parse_authorization_header
  rw [parseDirectives_scheme scheme1 rest others h1 hr,
    parseDirectives_scheme scheme2 rest others h2 hr]
  cases hres : (splitStr ',' rest).foldlM applyDirective {} with
  | none => rfl
  | some p =>
      show validateParams _ p = validateParams _ p
      exact validateParams_congr _ _ p
        (fun x _ => hmContains_cons_val "authorization" _ _ others x)

/-- C10 witness: the scenario's directive list behind the scheme token
`Basic` parses to exactly the scenario's parameters. -/
theorem C10_witness :
    parse_authorization_header
        (("authorization", strBytes ("Basic" ++ " " ++ testAuthDirectives)) ::
          otherHeaders) =
      some testParams ∧
    ("Basic" : String) ≠ "AWS4-HMAC-SHA256" := by
  have h := C10_scheme_ignored "Basic" "AWS4-HMAC-SHA256" testAuthDirectives
    otherHeaders (by decide) (by decide) (by decide)
  exact ⟨h.trans (by rfl), by decide⟩

/-- C1 counterexample: with namespace `A`, the caller-supplied bucket name
`..` and object name `x` make `create_object`/`get_object` hand the backend
the path `A/../x`, which resolves to `x` — outside `A/` — and the existence
probe path `A/..`, which resolves to the store root.  Tenant isolation does
not hold for traversal-carrying names. -/
theorem C1_counterexample :
    objectPath "A" ".." "x" = "A/../x" ∧
    resolvePath (objectPath "A" ".." "x") = ["x"] ∧
    underNamespace "A" (objectPath "A" ".." "x") = false ∧
    bucketCheckPath "A" ".." = "A/.." ∧
    resolvePath (bucketCheckPath "A" "..") = [] := by
  refine ⟨rfl, rfl, rfl, rfl, rfl⟩

/-- C1 (amended): for every operation executed with a namespace
authenticated by the Request Gate, every Object Store path of ListBuckets,
CreateBucket, PutObject and GetObject begins textually with `{namespace}/` —
unconditionally, for ALL caller-supplied bucket and object names, including
names carrying `..`; and provided no `/`-separated segment of the
caller-supplied bucket or object name is `..`, each such path also RESOLVES
under the namespace.  (The counterexample shows the resolution guarantee
fails for names containing `..` segments.) -/
theorem C1_tenant_isolation
    (v : Headers → S3V4Params → String → String → String → List Nat → Option Bool)
    (pool : PoolResult) (eh : String) (hm : Headers) (m u : String)
    (b : List Nat) (ctx : VerifiedRequest) (bucket obj : String)
    (hgate : from_requestG v pool eh hm m u b = some (Except.ok ctx)) :
    ∀ p ∈ list_buckets_paths ctx.nspace ++
        create_bucket_paths ctx.nspace bucket ++
        create_object_paths ctx.nspace bucket obj ++
        get_object_paths ctx.nspace bucket obj,
      (∃ rest, p.data = ctx.nspace.data ++ '/' :: rest) ∧
        ((∀ s ∈ pathSegs bucket, s ≠ "..") →
         (∀ s ∈ pathSegs obj, s ≠ "..") →
          underNamespace ctx.nspace p = true) := by
  obtain ⟨params, hp, _, hns, _⟩ :=
    from_requestG_ok_params v pool eh hm m u b ctx hgate
  obtain ⟨hne0, hal0⟩ := parse_ok_facts hm params hp
  have hne : ctx.nspace ≠ "" := by rw [hns]; exact hne0
  have hal : ∀ c ∈ ctx.nspace.data, isAsciiAlphanumChar c = true := by
    rw [hns]; exact hal0
  intro p hmem
  simp only [list_buckets_paths, create_bucket_paths, create_object_paths,
    get_object_paths, List.mem_append, List.mem_cons, List.not_mem_nil,
    or_false] at hmem
  rcases hmem with ((rfl | (rfl | rfl)) | (rfl | rfl)) | (rfl | rfl)
  · exact ⟨⟨[], nsRootPath_data ctx.nspace⟩,
      fun _ _ => under_root ctx.nspace hne hal⟩
  · exact ⟨⟨[], nsRootPath_data ctx.nspace⟩,
      fun _ _ => under_root ctx.nspace hne hal⟩
  · exact ⟨⟨_, bucketDirPath_data ctx.nspace bucket⟩,
      fun hb _ => under_bucketDir ctx.nspace bucket hne hal hb⟩
  · exact ⟨⟨_, bucketCheckPath_data ctx.nspace bucket⟩,
      fun hb _ => under_bucketCheck ctx.nspace bucket hne hal hb⟩
  · exact ⟨⟨_, objectPath_data ctx.nspace bucket obj⟩,
      fun hb ho => under_object ctx.nspace bucket obj hne hal hb ho⟩
  · exact ⟨⟨_, bucketCheckPath_data ctx.nspace bucket⟩,
      fun hb _ => under_bucketCheck ctx.nspace bucket hne hal hb⟩
  · exact ⟨⟨_, objectPath_data ctx.nspace bucket obj⟩,
      fun hb ho => under_object ctx.nspace bucket obj hne hal hb ho⟩

/-- C1 witness: the amended isolation at the concrete authenticated run of
the scenario (the gate accepts the signed request, authenticating namespace
`ANOTREAL`): the textual prefix holds even for the traversal-carrying bucket
name `..`, and the resolution guarantee holds for traversal-free names. -/
theorem C1_witness :
    (∃ rest, (objectPath "ANOTREAL" ".." "x").data =
      ("ANOTREAL" : String).data ++ '/' :: rest) ∧
    underNamespace "ANOTREAL" (objectPath "ANOTREAL" "mybucket" "file.bin") =
      true := by
  have hgate : from_requestG verify_headers testPool testExternalHost
      testHeaderMap "GET" testOriginalUri [] =
      some (Except.ok ⟨"ANOTREAL", "ANOTREAL", []⟩) := by rfl
  have h1 := C1_tenant_isolation verify_headers testPool testExternalHost
    testHeaderMap "GET" testOriginalUri []
    ⟨"ANOTREAL", "ANOTREAL", []⟩ ".." "x" hgate
  have h2 := C1_tenant_isolation verify_headers testPool testExternalHost
    testHeaderMap "GET" testOriginalUri []
    ⟨"ANOTREAL", "ANOTREAL", []⟩ "mybucket" "file.bin" hgate
  refine ⟨(h1 (objectPath "ANOTREAL" ".." "x")
      (by simp [list_buckets_paths, create_bucket_paths, create_object_paths,
        get_object_paths])).1,
    (h2 (objectPath "ANOTREAL" "mybucket" "file.bin")
      (by simp [list_buckets_paths, create_bucket_paths, create_object_paths,
        get_object_paths])).2 (by decide) (by decide)⟩

/-- C3 counterexample: the claim "every other secret key fails" is false —
the secret key with a trailing NUL byte appended is a different key, yet
verification still returns true, because HMAC zero-pads keys shorter than
its 64-byte block, making the two keys HMAC-equivalent. -/
theorem C3_counterexample :
    secretWithNul ≠ testSecret ∧
    verify_headers testHeaderMap testParams "GET" testUrl secretWithNul [] =
      some true := by
  refine ⟨by decide, by rfl⟩

/-- C3 (amended): on the documented request, verification with the stated
secret key returns true, and the concrete wrong key the repository's test
exercises (`test1234`) returns false; but verification is not injective in
the key — the stated key with a trailing NUL byte appended also returns
true, so not EVERY other secret key fails. -/
theorem C3_concrete_scenario :
    parse_authorization_header testHeaderMap = some testParams ∧
    verify_headers testHeaderMap testParams "GET" testUrl testSecret [] =
        some true ∧
    verify_headers testHeaderMap testParams "GET" testUrl secretWithNul [] =
        some true ∧
    verify_headers testHeaderMap testParams "GET" testUrl "test1234" [] =
        some false := by
  refine ⟨rfl, rfl, rfl, rfl⟩

end S3Proxy
